import Mathlib

/-!
Verification of the p5.js-sound `PeakDetect` component (src/peakDetect.js).

JavaScript numbers are modelled as exact rationals (ℚ). The detector state
is a record of the fields the constructor `p5.PeakDetect` installs; the
registered observer callback `_onPeak` is modelled as inert data (either the
initial no-op closure or a registered `(callback, val)` pair), and `update`
additionally returns the list of observer invocations it performs, each
carrying the callback identity, the energy value passed to it (the closure
reads `self.energy`, which `update` has just set), and the captured payload.

`update` in the source reads `fftObject.getEnergy(this.f1, this.f2)/255`;
the spectral analyzer is an external collaborator, so the model's `update`
takes that already-normalized scalar `nrg` directly as its argument.
-/

namespace PeakDetectJS

/-- The `_onPeak` slot: either the no-op closure installed by the
constructor (`this._onPeak = function() {};`), or the closure installed by
`onPeak(callback, val)`, which carries the callback identity and the
captured payload. -/
inductive ObsSlot (κ π : Type) where
  | noop : ObsSlot κ π
  | registered (cb : κ) (val : π) : ObsSlot κ π
deriving DecidableEq

/-- State fields installed by the constructor `p5.PeakDetect`. -/
structure PeakDetect (κ π : Type) where
  framesPerPeak : ℚ
  framesSinceLastPeak : ℚ
  decayRate : ℚ
  threshold : ℚ
  cutoff : ℚ
  energy : ℚ
  penergy : ℚ
  isDetected : Bool
  f1 : ℚ
  f2 : ℚ
  _onPeak : ObsSlot κ π
deriving DecidableEq

/-- JavaScript `arg || dflt` for a numeric argument: an omitted argument
(`undefined`) and the number `0` are falsy, every other number is truthy. -/
def jsOr (arg : Option ℚ) (dflt : ℚ) : ℚ :=
  match arg with
  | none => dflt
  | some v => if v = 0 then dflt else v

/-- The constructor `p5.PeakDetect(freq1, freq2, threshold, _framesPerPeak)`
(src/peakDetect.js lines 84-114). -/
def mkPeakDetect {κ π : Type} (freq1 freq2 threshold _framesPerPeak : Option ℚ) :
    PeakDetect κ π where
  framesPerPeak := jsOr _framesPerPeak 5
  framesSinceLastPeak := 0
  decayRate := 0.95
  threshold := jsOr threshold 0.25
  cutoff := 0
  energy := 0
  penergy := 0
  isDetected := false
  f1 := jsOr freq1 40
  f2 := jsOr freq2 20000
  _onPeak := ObsSlot.noop

/-- The guard of `update`:
`nrg > this.cutoff && nrg > this.threshold && nrg - this.penergy > 0`. -/
def peakCond {κ π : Type} (s : PeakDetect κ π) (nrg : ℚ) : Prop :=
  nrg > s.cutoff ∧ nrg > s.threshold ∧ nrg - s.penergy > 0

instance {κ π : Type} (s : PeakDetect κ π) (nrg : ℚ) : Decidable (peakCond s nrg) :=
  inferInstanceAs (Decidable (nrg > s.cutoff ∧ nrg > s.threshold ∧ nrg - s.penergy > 0))

/-- What `this._onPeak()` does: the no-op closure does nothing; the closure
registered by `onPeak` calls `callback(self.energy, val)`, and `self.energy`
equals the current sample `nrg` at the moment of the call. -/
def invokeSlot {κ π : Type} : ObsSlot κ π → ℚ → List (κ × ℚ × π)
  | ObsSlot.noop, _ => []
  | ObsSlot.registered cb val, nrg => [(cb, nrg, val)]

/-- `p5.PeakDetect.prototype.update` (src/peakDetect.js lines 127-148),
flattened per branch. Every path sets `this.energy = nrg` first and
`this.penergy = nrg` last. Peak branch: invoke `_onPeak`, set `isDetected`,
`cutoff = nrg * 1.1`, `framesSinceLastPeak = 0`. Otherwise `isDetected =
false` and either increment `framesSinceLastPeak` (while `<= framesPerPeak`)
or decay `cutoff` by `decayRate` and clamp at `threshold`. Returns the new
state and the list of observer invocations performed. -/
def update {κ π : Type} (s : PeakDetect κ π) (nrg : ℚ) :
    PeakDetect κ π × List (κ × ℚ × π) :=
  if peakCond s nrg then
    ({ s with energy := nrg, isDetected := true, cutoff := nrg * 1.1,
              framesSinceLastPeak := 0, penergy := nrg },
      invokeSlot s._onPeak nrg)
  else if s.framesSinceLastPeak ≤ s.framesPerPeak then
    ({ s with energy := nrg, isDetected := false,
              framesSinceLastPeak := s.framesSinceLastPeak + 1, penergy := nrg }, [])
  else
    ({ s with energy := nrg, isDetected := false,
              cutoff := max (s.cutoff * s.decayRate) s.threshold, penergy := nrg }, [])

/-- `p5.PeakDetect.prototype.onPeak(callback, val)`
(src/peakDetect.js lines 180-186). -/
def onPeak {κ π : Type} (s : PeakDetect κ π) (callback : κ) (val : π) :
    PeakDetect κ π :=
  { s with _onPeak := ObsSlot.registered callback val }

/-- Fold a sequence of energy samples through `update`, keeping the state. -/
def runUpd {κ π : Type} (s : PeakDetect κ π) : List ℚ → PeakDetect κ π
  | [] => s
  | e :: es => runUpd (update s e).1 es

/-- Fold a sequence of energy samples through `update`, collecting every
observer invocation performed along the run. -/
def runLog {κ π : Type} (s : PeakDetect κ π) : List ℚ → PeakDetect κ π × List (κ × ℚ × π)
  | [] => (s, [])
  | e :: es =>
      ((runLog (update s e).1 es).1, (update s e).2 ++ (runLog (update s e).1 es).2)

/-- `true` iff no update along the run of samples fires a peak. -/
def noPeakRun {κ π : Type} (s : PeakDetect κ π) : List ℚ → Bool
  | [] => true
  | e :: es => !(decide (peakCond s e)) && noPeakRun (update s e).1 es

/-- A freshly constructed detector with every argument omitted. -/
def detDefault : PeakDetect Unit Unit := mkPeakDetect none none none none

-- Basic unfolding lemmas shared by the claim proofs.

theorem runUpd_cons {κ π : Type} (s : PeakDetect κ π) (e : ℚ) (es : List ℚ) :
    runUpd s (e :: es) = runUpd (update s e).1 es := rfl

theorem update_penergy {κ π : Type} (s : PeakDetect κ π) (e : ℚ) :
    (update s e).1.penergy = e := by
  unfold update
  split
  · rfl
  · split <;> rfl

theorem update_threshold {κ π : Type} (s : PeakDetect κ π) (e : ℚ) :
    (update s e).1.threshold = s.threshold := by
  unfold update
  split
  · rfl
  · split <;> rfl

theorem update_slot {κ π : Type} (s : PeakDetect κ π) (e : ℚ) :
    (update s e).1._onPeak = s._onPeak := by
  unfold update
  split
  · rfl
  · split <;> rfl

/-- C1: after any call to `update` with sample `e`, `isDetected` is true iff,
on the pre-call state, `e` exceeds `cutoff`, exceeds `threshold`, and
strictly exceeds the previous sample `penergy`. -/
theorem update_isDetected_iff {κ π : Type} (s : PeakDetect κ π) (e : ℚ) :
    (update s e).1.isDetected = true ↔
      (e > s.cutoff ∧ e > s.threshold ∧ e > s.penergy) := by
  unfold update
  by_cases h : peakCond s e
  · rw [if_pos h]
    obtain ⟨h1, h2, h3⟩ := h
    exact ⟨fun _ => ⟨h1, h2, by linarith⟩, fun _ => rfl⟩
  · rw [if_neg h]
    constructor
    · intro hfalse
      exfalso
      revert hfalse
      split <;> simp
    · intro hrhs
      exact absurd ⟨hrhs.1, hrhs.2.1, by linarith [hrhs.2.2]⟩ h

/-- C6: on any update in which a peak fires with sample `e`, the post state
has `cutoff = e * 1.1`, `framesSinceLastPeak = 0` and `penergy = e`, hence
`cutoff = penergy * 1.1` right after that update. -/
theorem peak_postconditions {κ π : Type} (s : PeakDetect κ π) (e : ℚ)
    (h : peakCond s e) :
    (update s e).1.cutoff = e * 1.1 ∧
    (update s e).1.framesSinceLastPeak = 0 ∧
    (update s e).1.penergy = e ∧
    (update s e).1.cutoff = (update s e).1.penergy * 1.1 := by
  unfold update
  rw [if_pos h]
  exact ⟨rfl, rfl, rfl, rfl⟩

/-- Witness for `peak_postconditions`: the default detector fed `1/2`
fires a peak, and the stated postconditions hold there. -/
theorem peak_postconditions_witness :
    (update detDefault (1/2)).1.cutoff = (1/2) * 1.1 ∧
    (update detDefault (1/2)).1.framesSinceLastPeak = 0 ∧
    (update detDefault (1/2)).1.penergy = 1/2 ∧
    (update detDefault (1/2)).1.cutoff = (update detDefault (1/2)).1.penergy * 1.1 :=
  peak_postconditions detDefault (1/2)
    (by norm_num [peakCond, detDefault, mkPeakDetect, jsOr])

/-- C2 counterexample: on a freshly constructed detector the very first
update (sample `0`, no peak, still inside the debounce window) leaves
`cutoff = 0` strictly below `threshold = 0.25`, so the invariant
`cutoff >= threshold` does not hold on the frames right after
construction. -/
theorem cutoff_below_threshold_after_first_update :
    (update detDefault 0).1.cutoff < (update detDefault 0).1.threshold := by
  norm_num [detDefault, mkPeakDetect, jsOr, update, peakCond]

/-- C2 (amended): with a nonnegative `threshold`, the invariant
`threshold <= cutoff` is preserved by every update; it is only
established (rather than assumed) by the first peak or the first decay
frame, not at construction, where `cutoff` starts at `0`. -/
theorem cutoff_ge_threshold_preserved {κ π : Type} (s : PeakDetect κ π) (e : ℚ)
    (h0 : 0 ≤ s.threshold) (hinv : s.threshold ≤ s.cutoff) :
    (update s e).1.threshold ≤ (update s e).1.cutoff := by
  unfold update
  by_cases h : peakCond s e
  · rw [if_pos h]
    obtain ⟨h1, h2, h3⟩ := h
    show s.threshold ≤ e * 1.1
    nlinarith
  · rw [if_neg h]
    split
    · exact hinv
    · exact le_max_right _ _

/-- A detector state satisfying the invariant `threshold <= cutoff`. -/
def detInv : PeakDetect Unit Unit := { detDefault with cutoff := 0.3 }

/-- Witness for `cutoff_ge_threshold_preserved` at a concrete state with
`threshold = 0.25 <= cutoff = 0.3` and sample `0`. -/
theorem cutoff_ge_threshold_preserved_witness :
    (update detInv 0).1.threshold ≤ (update detInv 0).1.cutoff :=
  cutoff_ge_threshold_preserved detInv 0
    (by norm_num [detInv, detDefault, mkPeakDetect, jsOr])
    (by norm_num [detInv, detDefault, mkPeakDetect, jsOr])

/-- C7 counterexample: an explicitly supplied `threshold` of `0` is NOT
stored as `0` — JavaScript `threshold || 0.25` treats `0` as falsy, so the
constructor stores the default `0.25` instead. -/
theorem zero_threshold_replaced_by_default :
    (mkPeakDetect none none (some 0) none : PeakDetect Unit Unit).threshold = 0.25 ∧
    (0.25 : ℚ) ≠ 0 := by
  norm_num [mkPeakDetect, jsOr]

/-- C7 (amended): every explicitly supplied NONZERO constructor argument is
stored as-is; an omitted argument gets the default (40, 20000, 0.25, 5),
and — because `||` treats the number `0` as falsy — an explicitly supplied
`0` is also replaced by the default. -/
theorem constructor_args_amended {κ π : Type} (a b c d : ℚ)
    (ha : a ≠ 0) (hb : b ≠ 0) (hc : c ≠ 0) (hd : d ≠ 0) :
    ((mkPeakDetect (some a) (some b) (some c) (some d) : PeakDetect κ π).f1 = a ∧
     (mkPeakDetect (some a) (some b) (some c) (some d) : PeakDetect κ π).f2 = b ∧
     (mkPeakDetect (some a) (some b) (some c) (some d) : PeakDetect κ π).threshold = c ∧
     (mkPeakDetect (some a) (some b) (some c) (some d) : PeakDetect κ π).framesPerPeak = d) ∧
    ((mkPeakDetect none none none none : PeakDetect κ π).f1 = 40 ∧
     (mkPeakDetect none none none none : PeakDetect κ π).f2 = 20000 ∧
     (mkPeakDetect none none none none : PeakDetect κ π).threshold = 0.25 ∧
     (mkPeakDetect none none none none : PeakDetect κ π).framesPerPeak = 5) ∧
    ((mkPeakDetect (some 0) (some 0) (some 0) (some 0) : PeakDetect κ π).f1 = 40 ∧
     (mkPeakDetect (some 0) (some 0) (some 0) (some 0) : PeakDetect κ π).f2 = 20000 ∧
     (mkPeakDetect (some 0) (some 0) (some 0) (some 0) : PeakDetect κ π).threshold = 0.25 ∧
     (mkPeakDetect (some 0) (some 0) (some 0) (some 0) : PeakDetect κ π).framesPerPeak = 5) := by
  simp [mkPeakDetect, jsOr, ha, hb, hc, hd]

/-- Witness for `constructor_args_amended` at the nonzero arguments
`1, 2, 3, 4`. -/
theorem constructor_args_amended_witness :
    ((mkPeakDetect (some 1) (some 2) (some 3) (some 4) : PeakDetect Unit Unit).f1 = 1 ∧
     (mkPeakDetect (some 1) (some 2) (some 3) (some 4) : PeakDetect Unit Unit).f2 = 2 ∧
     (mkPeakDetect (some 1) (some 2) (some 3) (some 4) : PeakDetect Unit Unit).threshold = 3 ∧
     (mkPeakDetect (some 1) (some 2) (some 3) (some 4) : PeakDetect Unit Unit).framesPerPeak = 4) ∧
    ((mkPeakDetect none none none none : PeakDetect Unit Unit).f1 = 40 ∧
     (mkPeakDetect none none none none : PeakDetect Unit Unit).f2 = 20000 ∧
     (mkPeakDetect none none none none : PeakDetect Unit Unit).threshold = 0.25 ∧
     (mkPeakDetect none none none none : PeakDetect Unit Unit).framesPerPeak = 5) ∧
    ((mkPeakDetect (some 0) (some 0) (some 0) (some 0) : PeakDetect Unit Unit).f1 = 40 ∧
     (mkPeakDetect (some 0) (some 0) (some 0) (some 0) : PeakDetect Unit Unit).f2 = 20000 ∧
     (mkPeakDetect (some 0) (some 0) (some 0) (some 0) : PeakDetect Unit Unit).threshold = 0.25 ∧
     (mkPeakDetect (some 0) (some 0) (some 0) (some 0) : PeakDetect Unit Unit).framesPerPeak = 5) :=
  constructor_args_amended 1 2 3 4 (by norm_num) (by norm_num) (by norm_num) (by norm_num)

/-- All state fields of the detector except the observer slot. -/
def coreFields {κ π : Type} (s : PeakDetect κ π) :
    ℚ × ℚ × ℚ × ℚ × ℚ × ℚ × ℚ × Bool × ℚ × ℚ :=
  (s.framesPerPeak, s.framesSinceLastPeak, s.decayRate, s.threshold, s.cutoff,
    s.energy, s.penergy, s.isDetected, s.f1, s.f2)

/-- C10: a freshly constructed detector carries the no-op observer closure,
and `update` acts on all non-observer state fields independently of which
observer is installed, so an update before any `onPeak` call behaves on
every state field exactly like an update with an effect-free observer. -/
theorem fresh_detector_noop_observer {κ π : Type}
    (freq1 freq2 threshold fpp : Option ℚ) (s : PeakDetect κ π) (e : ℚ)
    (slot : ObsSlot κ π) :
    (mkPeakDetect freq1 freq2 threshold fpp : PeakDetect κ π)._onPeak = ObsSlot.noop ∧
    coreFields (update { s with _onPeak := slot } e).1 = coreFields (update s e).1 := by
  refine ⟨rfl, ?_⟩
  unfold update
  by_cases h : peakCond s e
  · rw [if_pos (show peakCond { s with _onPeak := slot } e from h), if_pos h]
    rfl
  · rw [if_neg (show ¬ peakCond { s with _onPeak := slot } e from h),
      if_neg h]
    by_cases h2 : s.framesSinceLastPeak ≤ s.framesPerPeak
    · rw [if_pos (show ({ s with _onPeak := slot } :
          PeakDetect κ π).framesSinceLastPeak ≤
          ({ s with _onPeak := slot } : PeakDetect κ π).framesPerPeak from h2),
        if_pos h2]
      rfl
    · rw [if_neg (show ¬ (({ s with _onPeak := slot } :
          PeakDetect κ π).framesSinceLastPeak ≤
          ({ s with _onPeak := slot } : PeakDetect κ π).framesPerPeak) from h2),
        if_neg h2]
      rfl

/-- C9: `update` never changes `f1`, `f2`, `threshold`, `framesPerPeak`,
`decayRate`, nor the registered observer; only `energy`, `penergy`,
`cutoff`, `framesSinceLastPeak` and `isDetected` may change. -/
theorem update_preserves_config {κ π : Type} (s : PeakDetect κ π) (e : ℚ) :
    (update s e).1.f1 = s.f1 ∧ (update s e).1.f2 = s.f2 ∧
    (update s e).1.threshold = s.threshold ∧
    (update s e).1.framesPerPeak = s.framesPerPeak ∧
    (update s e).1.decayRate = s.decayRate ∧
    (update s e).1._onPeak = s._onPeak := by
  unfold update
  split
  · exact ⟨rfl, rfl, rfl, rfl, rfl, rfl⟩
  · split <;> exact ⟨rfl, rfl, rfl, rfl, rfl, rfl⟩

/-- The detector of the worked example: `threshold = 0.25`,
`framesPerPeak = 2`. -/
def det3 : PeakDetect Unit Unit := mkPeakDetect none none (some 0.25) (some 2)

/-- C3 counterexample: on the energy sequence `[0.1, 0.3, 0.5, 0.4, 0.6]`
the claim says no peak fires at index 1, but after the index-1 update
(`0.3 > cutoff 0`, `0.3 > threshold 0.25`, rising from `0.1`) `isDetected`
is true. -/
theorem seq_example_peak_at_index_one :
    ¬ ((runUpd det3 [0.1, 0.3]).isDetected = false) := by
  norm_num [det3, mkPeakDetect, jsOr, runUpd, update, peakCond]

/-- C3 (amended): on `[0.1, 0.3, 0.5, 0.4, 0.6]` peaks fire at indices 1, 2
and 4 (not only 2 and 4): no peak at index 0, peaks at indices 1 and 2 with
`cutoff = 0.55` after index 2, no peak at index 3, and a peak at index 4. -/
theorem seq_example_run_amended :
    (runUpd det3 [0.1]).isDetected = false ∧
    (runUpd det3 [0.1, 0.3]).isDetected = true ∧
    (runUpd det3 [0.1, 0.3, 0.5]).isDetected = true ∧
    (runUpd det3 [0.1, 0.3, 0.5]).cutoff = 0.55 ∧
    (runUpd det3 [0.1, 0.3, 0.5, 0.4]).isDetected = false ∧
    (runUpd det3 [0.1, 0.3, 0.5, 0.4, 0.6]).isDetected = true := by
  norm_num [det3, mkPeakDetect, jsOr, runUpd, update, peakCond]

-- A flat stream can never satisfy the rising-edge condition.

theorem no_peak_on_flat {κ π : Type} (t : PeakDetect κ π) (v : ℚ)
    (hp : t.penergy = v) : (update t v).1.isDetected = false := by
  have h : ¬ peakCond t v := by
    intro hc
    have h3 := hc.2.2
    rw [hp] at h3
    linarith
  unfold update
  rw [if_neg h]
  split <;> rfl

theorem flat_iterate_penergy {κ π : Type} (v : ℚ) :
    ∀ (n : ℕ) (t : PeakDetect κ π), t.penergy = v →
      ((fun u => (update u v).1)^[n] t).penergy = v := by
  intro n
  induction n with
  | zero => intro t ht; simpa using ht
  | succ k ih =>
      intro t ht
      rw [Function.iterate_succ_apply]
      exact ih _ (update_penergy t v)

/-- C5: a freshly constructed detector with positive stored `threshold`,
fed the constant value `threshold + ε` (any `ε > 0`) on every update, sets
`isDetected` on the first update and on no later update: exactly one peak
fires over the whole stream. -/
theorem constant_stream_single_peak {κ π : Type}
    (freq1 freq2 th fpp : Option ℚ) (s0 : PeakDetect κ π)
    (hs0 : s0 = mkPeakDetect freq1 freq2 th fpp) (ε v : ℚ) (hε : 0 < ε)
    (hth : 0 < s0.threshold) (hv : v = s0.threshold + ε) :
    ((update s0 v).1.isDetected = true) ∧
    ∀ n : ℕ,
      ((fun u => (update u v).1)^[n + 1] (update s0 v).1).isDetected = false := by
  constructor
  · have hcut : s0.cutoff = 0 := by rw [hs0]; rfl
    have hpen : s0.penergy = 0 := by rw [hs0]; rfl
    have hpk : peakCond s0 v := by
      refine ⟨?_, ?_, ?_⟩
      · rw [hcut, hv]; linarith
      · rw [hv]; linarith
      · rw [hpen, hv]; linarith
    unfold update
    rw [if_pos hpk]
  · intro n
    rw [Function.iterate_succ_apply']
    exact no_peak_on_flat _ v
      (flat_iterate_penergy v n (update s0 v).1 (update_penergy s0 v))

/-- Witness for `constant_stream_single_peak`: the default detector
(`threshold = 0.25`) fed the constant `5/4 = 0.25 + 1` detects a peak on
the first update and not on the second. -/
theorem constant_stream_single_peak_witness :
    ((update detDefault (5/4)).1.isDetected = true) ∧
    ((fun u => (update u (5/4)).1)^[1] (update detDefault (5/4)).1).isDetected
      = false := by
  have H := constant_stream_single_peak none none none none detDefault rfl 1 (5/4)
    (by norm_num) (by norm_num [detDefault, mkPeakDetect, jsOr])
    (by norm_num [detDefault, mkPeakDetect, jsOr])
  exact ⟨H.1, H.2 0⟩

-- The invocations a single update performs, and the invariant that a run
-- started with a registered observer only ever invokes that observer.

theorem update_log {κ π : Type} (s : PeakDetect κ π) (e : ℚ) :
    (update s e).2 = if peakCond s e then invokeSlot s._onPeak e else [] := by
  unfold update
  by_cases h : peakCond s e
  · rw [if_pos h, if_pos h]
  · rw [if_neg h, if_neg h]
    split <;> rfl

theorem runLog_registered {κ π : Type} (cb : κ) (val : π) :
    ∀ (es : List ℚ) (s : PeakDetect κ π),
      s._onPeak = ObsSlot.registered cb val →
      ∀ x ∈ (runLog s es).2, x.1 = cb ∧ x.2.2 = val := by
  intro es
  induction es with
  | nil =>
      intro s hs x hx
      simp [runLog] at hx
  | cons e es ih =>
      intro s hs x hx
      simp only [runLog, List.mem_append] at hx
      cases hx with
      | inl h1 =>
          rw [update_log] at h1
          by_cases hpk : peakCond s e
          · rw [if_pos hpk, hs] at h1
            simp only [invokeSlot, List.mem_singleton] at h1
            rw [h1]
            exact ⟨rfl, rfl⟩
          · rw [if_neg hpk] at h1
            simp at h1
      | inr h2 =>
          exact ih (update s e).1 (by rw [update_slot, hs]) x h2

/-- C8: `onPeak` overwrites the observer slot with the new callback and its
captured payload, so along any later run of updates every invocation
performed carries exactly the newly registered callback and that payload
(the previous observer is never invoked again), and an update that fires a
peak with sample `e` invokes it once, passing the current energy `e` and
the captured payload. -/
theorem onPeak_replaces_observer {κ π : Type} (s : PeakDetect κ π) (cb : κ)
    (val : π) :
    ((onPeak s cb val)._onPeak = ObsSlot.registered cb val) ∧
    (∀ es : List ℚ, ∀ x ∈ (runLog (onPeak s cb val) es).2,
      x.1 = cb ∧ x.2.2 = val) ∧
    (∀ e : ℚ, peakCond (onPeak s cb val) e →
      (update (onPeak s cb val) e).2 = [(cb, e, val)]) := by
  refine ⟨rfl, fun es x hx => runLog_registered cb val es _ rfl x hx,
    fun e he => ?_⟩
  rw [update_log, if_pos he]
  rfl

/-- A default detector whose observer types can record callback identities
and payloads as natural numbers. -/
def detN : PeakDetect ℕ ℕ := mkPeakDetect none none none none

/-- Witness for `onPeak_replaces_observer`: registering callback `3` with
payload `7` on a default detector, then feeding `1/2`, fires a peak whose
single invocation is `(3, 1/2, 7)`. -/
theorem onPeak_replaces_observer_witness :
    ((onPeak detN 3 7)._onPeak = ObsSlot.registered 3 7) ∧
    (((3 : ℕ), ((1/2 : ℚ), (7 : ℕ))).1 = 3 ∧
      ((3 : ℕ), ((1/2 : ℚ), (7 : ℕ))).2.2 = 7) ∧
    ((update (onPeak detN 3 7) (1/2)).2 = [(3, 1/2, 7)]) := by
  have H := onPeak_replaces_observer detN 3 7
  refine ⟨H.1, H.2.1 [1/2] (3, 1/2, 7) ?_, H.2.2 (1/2) ?_⟩
  · show ((3 : ℕ), ((1/2 : ℚ), (7 : ℕ))) ∈ (runLog (onPeak detN 3 7) [1/2]).2
    simp only [runLog]
    rw [update_log,
      if_pos (show peakCond (onPeak detN 3 7) (1/2) by
        norm_num [peakCond, onPeak, detN, mkPeakDetect, jsOr])]
    simp [invokeSlot, onPeak]
  · norm_num [peakCond, onPeak, detN, mkPeakDetect, jsOr]

-- Hold phase after a peak: along a run of non-peak frames started with
-- framesSinceLastPeak = j, the counter just increments and the cutoff is
-- untouched as long as the debounce window (framesPerPeak = n) lasts.

theorem hold_phase_aux {κ π : Type} (n : ℕ) (es : List ℚ) :
    ∀ (s : PeakDetect κ π) (j : ℕ),
      s.framesPerPeak = (n : ℚ) → s.framesSinceLastPeak = (j : ℚ) →
      noPeakRun s es = true → j + es.length ≤ n + 1 →
      (runUpd s es).cutoff = s.cutoff ∧
      (runUpd s es).framesSinceLastPeak = ((j + es.length : ℕ) : ℚ) := by
  induction es with
  | nil =>
      intro s j hfpp hj _ _
      exact ⟨rfl, by simpa using hj⟩
  | cons e es ih =>
      intro s j hfpp hj hnp hlen
      have hnp' : (!(decide (peakCond s e)) &&
          noPeakRun (update s e).1 es) = true := hnp
      simp only [Bool.and_eq_true, Bool.not_eq_true',
        decide_eq_false_iff_not] at hnp'
      obtain ⟨hnpk, hnprest⟩ := hnp'
      have hjn : j ≤ n := by
        have hlen' : j + (es.length + 1) ≤ n + 1 := by
          simpa [List.length_cons] using hlen
        omega
      have hle : s.framesSinceLastPeak ≤ s.framesPerPeak := by
        rw [hj, hfpp]
        exact_mod_cast hjn
      have hupd : (update s e).1 =
          { s with energy := e, isDetected := false,
                   framesSinceLastPeak := s.framesSinceLastPeak + 1,
                   penergy := e } := by
        unfold update
        rw [if_neg hnpk, if_pos hle]
      have h1 := ih (update s e).1 (j + 1)
        (by rw [hupd]; exact hfpp)
        (by
          rw [hupd]
          show s.framesSinceLastPeak + 1 = ((j + 1 : ℕ) : ℚ)
          rw [hj]
          push_cast
          ring)
        hnprest
        (by simp only [List.length_cons] at hlen ⊢; omega)
      rw [runUpd_cons]
      refine ⟨?_, ?_⟩
      · rw [h1.1, hupd]
      · rw [h1.2]
        congr 1
        simp only [List.length_cons]
        omega

/-- The detector of the C4 counterexample: `framesPerPeak = 1`. -/
def det4 : PeakDetect Unit Unit := mkPeakDetect none none none (some 1)

/-- C4 counterexample: with `framesPerPeak = 1`, feeding `1/2` fires a peak
(`cutoff` becomes `0.55`); the claim then says the cutoff stays unchanged
for exactly ONE non-peak frame and is multiplied by `0.95` on the second,
but after two non-peak frames the code still has `cutoff = 0.55`,
not `max (0.55 * 0.95) 0.25`. -/
theorem hold_lasts_framesPerPeak_succ_frames :
    (runUpd det4 [1/2]).isDetected = true ∧
    (runUpd det4 [1/2]).cutoff = 0.55 ∧
    (runUpd det4 [1/2, 1/10]).isDetected = false ∧
    (runUpd det4 [1/2, 1/10]).cutoff = 0.55 ∧
    (runUpd det4 [1/2, 1/10, 1/10]).isDetected = false ∧
    (runUpd det4 [1/2, 1/10, 1/10]).cutoff = 0.55 ∧
    (0.55 : ℚ) ≠ max ((0.55 : ℚ) * 0.95) 0.25 := by
  rw [max_eq_left (by norm_num)]
  norm_num [det4, mkPeakDetect, jsOr, runUpd, update, peakCond]

/-- C4 (amended): after a fired peak (`framesSinceLastPeak = 0`, with
`framesPerPeak` the natural number `n`), the cutoff stays unchanged for the
first `n + 1` non-peak frames — one more than the claim's "exactly
`framesPerPeak`" — while the counter climbs to the length of the run; and
from any state whose counter strictly exceeds `framesPerPeak`, every
non-peak frame multiplies the cutoff by `decayRate` and clamps it from
below at `threshold`, leaving the counter unchanged. -/
theorem decay_after_debounce_amended {κ π : Type} (n : ℕ) (s : PeakDetect κ π)
    (es : List ℚ) (hfpp : s.framesPerPeak = (n : ℚ))
    (h0 : s.framesSinceLastPeak = 0) (hnp : noPeakRun s es = true)
    (hlen : es.length ≤ n + 1) :
    ((runUpd s es).cutoff = s.cutoff ∧
      (runUpd s es).framesSinceLastPeak = (es.length : ℚ)) ∧
    (∀ (t : PeakDetect κ π) (e : ℚ),
      t.framesPerPeak < t.framesSinceLastPeak → ¬ peakCond t e →
      (update t e).1.cutoff = max (t.cutoff * t.decayRate) t.threshold ∧
      (update t e).1.framesSinceLastPeak = t.framesSinceLastPeak) := by
  constructor
  · have H := hold_phase_aux n es s 0 hfpp (by simpa using h0) hnp
      (by simpa using hlen)
    simpa using H
  · intro t e hgt hnpk
    unfold update
    rw [if_neg hnpk, if_neg (not_le.mpr hgt)]
    exact ⟨rfl, rfl⟩

/-- The state of `det4` right after its peak on `1/2`. -/
def det4post : PeakDetect Unit Unit := runUpd det4 [1/2]

/-- A default detector whose debounce window has already elapsed. -/
def detHeld : PeakDetect Unit Unit := { detDefault with framesSinceLastPeak := 6 }

/-- Witness for `decay_after_debounce_amended`: after the peak of `det4`
(`framesPerPeak = 1`), two non-peak frames leave the cutoff untouched and
bring the counter to 2; and on `detHeld` (counter 6 > `framesPerPeak` 5) a
non-peak frame decays and clamps the cutoff, keeping the counter. -/
theorem decay_after_debounce_amended_witness :
    (((runUpd det4post [1/10, 1/10]).cutoff = det4post.cutoff ∧
      (runUpd det4post [1/10, 1/10]).framesSinceLastPeak
        = ((([1/10, 1/10] : List ℚ).length : ℕ) : ℚ)) ∧
     ((update detHeld 0).1.cutoff
        = max (detHeld.cutoff * detHeld.decayRate) detHeld.threshold ∧
      (update detHeld 0).1.framesSinceLastPeak = detHeld.framesSinceLastPeak)) := by
  have H := decay_after_debounce_amended 1 det4post [1/10, 1/10]
    (by norm_num [det4post, det4, runUpd, update, peakCond, mkPeakDetect, jsOr])
    (by norm_num [det4post, det4, runUpd, update, peakCond, mkPeakDetect, jsOr])
    (by norm_num [noPeakRun, det4post, det4, runUpd, update, peakCond,
      mkPeakDetect, jsOr])
    (by norm_num)
  exact ⟨H.1, H.2 detHeld 0
    (by norm_num [detHeld, detDefault, mkPeakDetect, jsOr])
    (by norm_num [peakCond, detHeld, detDefault, mkPeakDetect, jsOr])⟩

end PeakDetectJS
